import Mathlib

/-
Verification of the search-and-enrichment pipeline of youtube_scout.py.

The Python source is shallowly embedded here:
strings are `List Char` (ASCII; the API payloads the program handles are
ASCII), Python `int` is `Int` (or `Nat` where the source value is a count),
dictionaries are association lists where a later binding overrides an
earlier one, and a fallible HTTP call is a function into `Except Unit`.
The network clients are abstracted as explicit function parameters so the
pipeline logic can be run on concrete mocked responses.
-/

namespace YtScout

/-! ## Python string helpers (ASCII semantics of lower/strip/split) -/

/-- ASCII whitespace, as recognised by Python `str.split()` / `str.strip()`. -/
def isSpace (c : Char) : Bool :=
  c == ' ' || c == '\t' || c == '\n' || c == '\x0b' || c == '\x0c' || c == '\r'

/-- Python `s.strip()` on ASCII text: drop leading and trailing whitespace. -/
def pyStrip (l : List Char) : List Char :=
  ((l.dropWhile isSpace).reverse.dropWhile isSpace).reverse

/-- Accumulator loop for `pySplit`; `cur` holds the current token reversed. -/
def pySplitGo : List Char → List Char → List (List Char)
  | [], cur => if cur.isEmpty then [] else [cur.reverse]
  | c :: rest, cur =>
    if isSpace c then
      if cur.isEmpty then pySplitGo rest [] else cur.reverse :: pySplitGo rest []
    else
      pySplitGo rest (c :: cur)

/-- Python `s.split()` with no argument: split on runs of whitespace,
dropping empty tokens. -/
def pySplit (l : List Char) : List (List Char) := pySplitGo l []

/-! ## Duration codec -/

/-- Numeric value of an ASCII digit character. -/
def digitVal (c : Char) : Nat := c.toNat - 48

/-- Python `int(num)` for a string of decimal digits (`int("" or 0)` is 0). -/
def digitsToNat (num : List Char) : Nat :=
  num.foldl (fun a c => a * 10 + digitVal c) 0

/-- Character loop of `iso8601_duration_to_seconds`: `total` is the running
seconds count, `num` the pending digit run.  Mirrors the Python source:
`T` is skipped, digits extend `num`, a unit marker `H`/`M`/`S` adds
`int(num or 0)` times its weight, and any other character resets `num`. -/
def iso_go : List Char → Int → List Char → Int
  | [], total, _ => total
  | ch :: rest, total, num =>
    if ch = 'T' then iso_go rest total num
    else if ch.isDigit then iso_go rest total (num ++ [ch])
    else if ch = 'H' then iso_go rest (total + (digitsToNat num : Int) * 3600) []
    else if ch = 'M' then iso_go rest (total + (digitsToNat num : Int) * 60) []
    else if ch = 'S' then iso_go rest (total + (digitsToNat num : Int)) []
    else iso_go rest total []

/-- `iso8601_duration_to_seconds(iso)`: every `P` is removed first
(Python `iso.replace("P", "")`), then the character loop runs. -/
def iso8601_duration_to_seconds (iso : List Char) : Int :=
  iso_go (iso.filter (fun c => c ≠ 'P')) 0 []

/-- The decimal digit character for `d % 10`. -/
def digitChar (d : Nat) : Char :=
  match d with
  | 0 => '0' | 1 => '1' | 2 => '2' | 3 => '3' | 4 => '4'
  | 5 => '5' | 6 => '6' | 7 => '7' | 8 => '8' | _ => '9'

/-- Fuelled decimal rendering; `natDigitsGo fuel n acc` prepends the digits
of `n` to `acc` (empty for `n = 0`). -/
def natDigitsGo : Nat → Nat → List Char → List Char
  | 0, _, acc => acc
  | fuel + 1, n, acc =>
    if n = 0 then acc else natDigitsGo fuel (n / 10) (digitChar (n % 10) :: acc)

/-- Python `f"{n:02}"`: decimal rendering of `n`, zero-padded to width 2. -/
def fmt02 (n : Nat) : List Char :=
  let ds := natDigitsGo (n + 1) n []
  if ds.length = 0 then ['0', '0'] else if ds.length = 1 then '0' :: ds else ds

/-- `seconds_to_hms(sec)`: `hh:mm:ss` when the hour field is nonzero,
else `mm:ss`, all fields zero-padded to two digits. -/
def seconds_to_hms (sec : Nat) : List Char :=
  let h := sec / 3600
  let m := sec % 3600 / 60
  let s := sec % 60
  if h ≠ 0 then fmt02 h ++ ':' :: (fmt02 m ++ ':' :: fmt02 s)
  else fmt02 m ++ ':' :: fmt02 s

/-- A character that is not one of the decoder's unit markers `H`/`M`/`S`.
A string all of whose characters satisfy this has no recognizable
digit-run/unit structure, so the decoder treats it as malformed. -/
def notUnit (c : Char) : Bool := !(c == 'H' || c == 'M' || c == 'S')

/-! ## Facet filters -/

/-- `duration_ok(filter_key, seconds)` from the source: the recognised keys
test their ranges, any other key returns `True`. -/
def duration_ok (filter_key : List Char) (seconds : Int) : Bool :=
  if filter_key = String.toList "any" then true
  else if filter_key = String.toList "short" then decide (seconds < 4 * 60)
  else if filter_key = String.toList "medium" then
    decide (4 * 60 ≤ seconds) && decide (seconds ≤ 20 * 60)
  else if filter_key = String.toList "long" then decide (seconds > 20 * 60)
  else if filter_key = String.toList "over1h" then decide (seconds ≥ 60 * 60)
  else if filter_key = String.toList "over3h" then decide (seconds ≥ 3 * 60 * 60)
  else true

/-- The drop condition of the view filter in `_search_worker`
(`if opts.min_views_value and views < opts.min_views_value: continue`). -/
def view_filter_drops (minViews views : Nat) : Bool :=
  minViews != 0 && decide (views < minViews)

/-- A row is retained by the view filter iff it is not dropped; this is the
`meets_view_floor` predicate of the specification. -/
def meets_view_floor (minViews views : Nat) : Bool :=
  !view_filter_drops minViews views

/-- Does `pat` occur at the head of `s`? -/
def headMatch : List Char → List Char → Bool
  | [], _ => true
  | _ :: _, [] => false
  | a :: as, b :: bs => a == b && headMatch as bs

/-- Python substring containment `pat in s`: `pat` occurs contiguously in `s`
at some position (the empty pattern always occurs). -/
def isSubstr (pat : List Char) : List Char → Bool
  | [] => pat.isEmpty
  | s@(_ :: rest) => headMatch pat s || isSubstr pat rest

/-- The lowered, stripped query `q = query.lower().strip()` of `_title_matches`. -/
def norm_query (query : List Char) : List Char :=
  pyStrip (query.map Char.toLower)

/-- `tokens = [tok for tok in q.split() if tok]` of `_title_matches`. -/
def query_tokens (query : List Char) : List (List Char) :=
  (pySplit (norm_query query)).filter (fun tok => !tok.isEmpty)

/-- `_title_matches(query, title)`: empty query or title never matches;
otherwise all tokens must occur as substrings of the lowered title, falling
back to whole-string containment when there are no tokens. -/
def title_matches (query title : List Char) : Bool :=
  if query.isEmpty || title.isEmpty then false
  else if (query_tokens query).isEmpty then
    isSubstr (norm_query query) (title.map Char.toLower)
  else
    (query_tokens query).all (fun tok => isSubstr tok (title.map Char.toLower))

/-! ## Search Client responses and the per-category pagination loop -/

/-- One raw search hit as parsed in `_search_worker`: the `id` block may hold
a video, playlist or channel identifier, the snippet gives title, channel
name, publish timestamp and thumbnail. -/
structure RawItem where
  videoId : Option (List Char)
  playlistId : Option (List Char)
  channelId : Option (List Char)
  title : List Char
  channelTitle : List Char
  publishedAt : List Char
  thumb : List Char
deriving DecidableEq

/-- One page of the search endpoint: raw items plus an optional
continuation token (`None` when the response has no `nextPageToken`). -/
structure SearchPage where
  items : List RawItem
  nextPageToken : Option (List Char)
deriving DecidableEq

/-- The `while True` pagination loop of `_search_worker`, with the Search
Client abstracted as `oracle` (one call per loop iteration, keyed by the
continuation token passed).  `left` is `cap - pages`, the number of pages
the cap still allows, so the loop breaks after this call when the response
has no token or `left ≤ 1`.  Returns the concatenated raw items and the
number of search calls issued. -/
def search_go (oracle : Option (List Char) → SearchPage) :
    Nat → Option (List Char) → List RawItem × Nat
  | 0, tok => ((oracle tok).items, 1)
  | 1, tok => ((oracle tok).items, 1)
  | n + 2, tok =>
    let data := oracle tok
    match data.nextPageToken with
    | none => (data.items, 1)
    | some t =>
      let r := search_go oracle (n + 1) (some t)
      (data.items ++ r.1, r.2 + 1)

/-- One category's pagination: start with no token, `pages = 0`, and the
configured per-category page cap. -/
def search_pages (oracle : Option (List Char) → SearchPage) (cap : Nat) :
    List RawItem × Nat :=
  search_go oracle cap none

/-! ## Ingestion: per-item filtering inside the page loop -/

/-- A retained candidate, the tuple appended to `total_items`:
`(kind, id, title, channel_title, published_at, thumb)`. -/
structure Candidate where
  kind : List Char
  oid : List Char
  title : List Char
  channelTitle : List Char
  publishedAt : List Char
  thumb : List Char
deriving DecidableEq

/-- The per-item body of the page loop in `_search_worker`: depending on the
category being fetched, the matching identifier must be present and the
title must pass `_title_matches`, otherwise the item is skipped.  For the
channel category the channel-title column is set to the title itself,
exactly as in the source. -/
def ingest_item (query : List Char) (t : List Char) (it : RawItem) :
    Option Candidate :=
  if t = String.toList "video" then
    match it.videoId with
    | none => none
    | some vid =>
      if title_matches query it.title then
        some { kind := t, oid := vid, title := it.title,
               channelTitle := it.channelTitle,
               publishedAt := it.publishedAt, thumb := it.thumb }
      else none
  else if t = String.toList "playlist" then
    match it.playlistId with
    | none => none
    | some pid =>
      if title_matches query it.title then
        some { kind := t, oid := pid, title := it.title,
               channelTitle := it.channelTitle,
               publishedAt := it.publishedAt, thumb := it.thumb }
      else none
  else if t = String.toList "channel" then
    match it.channelId with
    | none => none
    | some cid =>
      if title_matches query it.title then
        some { kind := t, oid := cid, title := it.title,
               channelTitle := it.title,
               publishedAt := it.publishedAt, thumb := it.thumb }
      else none
  else none

/-- All candidates one category contributes to `total_items`, given the
pages' item lists in order: each raw item passes through `ingest_item`. -/
def collect_candidates (query : List Char) (t : List Char)
    (pages : List (List RawItem)) : List Candidate :=
  (pages.map (fun items => items.filterMap (ingest_item query t))).flatten

/-! ## Enrichment Client and batching -/

/-- The per-video statistics record built by `_yt_videos`. -/
structure EnrichRecord where
  viewCount : Nat
  likeCount : Nat
  commentCount : Nat
  durationSec : Int
  publishedAt : List Char
  thumb : List Char
  title : List Char
  channelTitle : List Char
deriving DecidableEq

/-- Fuelled chunking loop: `range(0, len(ids), 50)` slices of width 50.
Fuel `= ids.length` suffices since each step consumes at least one id. -/
def chunks_go {α : Type} : Nat → List α → List (List α)
  | 0, _ => []
  | _, [] => []
  | fuel + 1, l => l.take 50 :: chunks_go fuel (l.drop 50)

/-- The successive slices `video_ids[i : i + 50]` of the enrichment loop in
`_search_worker`. -/
def chunk50 {α : Type} (l : List α) : List (List α) := chunks_go l.length l

/-- `_yt_videos(ids)` with the HTTP call abstracted as `fetch`: an empty id
list returns an empty mapping without calling; otherwise one call is made
on at most the first 50 ids. -/
def yt_videos (fetch : List (List Char) → List (List Char × EnrichRecord))
    (ids : List (List Char)) : List (List Char × EnrichRecord) :=
  if ids.isEmpty then [] else fetch (ids.take 50)

/-- How many HTTP calls one `_yt_videos(ids)` invocation makes. -/
def yt_videos_calls (ids : List (List Char)) : Nat :=
  if ids.isEmpty then 0 else 1

/-- Total enrichment calls made by the batching loop of `_search_worker`. -/
def enrich_calls (ids : List (List Char)) : Nat :=
  ((chunk50 ids).map yt_videos_calls).sum

/-- `_yt_videos` with a fallible HTTP call: a failed call raises
(`Except.error`), otherwise the parsed mapping is returned. -/
def yt_videosE
    (fetch : List (List Char) → Except Unit (List (List Char × EnrichRecord)))
    (ids : List (List Char)) : Except Unit (List (List Char × EnrichRecord)) :=
  if ids.isEmpty then Except.ok [] else fetch (ids.take 50)

/-- The enrichment loop of `_search_worker`
(`for i in range(0, len(video_ids), 50): details.update(...)`): batches run
in order and an exception from any batch propagates out of the loop,
abandoning the `details` accumulated so far. -/
def enrich_allE
    (fetch : List (List Char) → Except Unit (List (List Char × EnrichRecord)))
    (ids : List (List Char)) : Except Unit (List (List Char × EnrichRecord)) :=
  (chunk50 ids).foldlM
    (fun acc b => (yt_videosE fetch b).map (fun m => acc ++ m)) []

/-- Step 3 of `_search_worker`: collect the ids of the video-category
candidates and batch-enrich them. -/
def enrich_details
    (fetch : List (List Char) → Except Unit (List (List Char × EnrichRecord)))
    (total_items : List Candidate) :
    Except Unit (List (List Char × EnrichRecord)) :=
  enrich_allE fetch
    ((total_items.filter (fun x => x.kind = String.toList "video")).map
      (fun x => x.oid))

/-- All-zero record: what `details.get(obj_id, {})` yields, field by field,
for a video id absent from the enrichment mapping. -/
def zeroRec : EnrichRecord :=
  { viewCount := 0, likeCount := 0, commentCount := 0, durationSec := 0,
    publishedAt := [], thumb := [], title := [], channelTitle := [] }

/-- Dictionary lookup with Python `dict.update` semantics: the last binding
of a key wins; a missing key falls back to all-zero stats. -/
def dict_get (details : List (List Char × EnrichRecord)) (key : List Char) :
    EnrichRecord :=
  (List.lookup key details.reverse).getD zeroRec

/-- Steps 3 and 4 of `_search_worker`, up to the numeric filters: enrich the
video candidates, then keep a candidate when it is a non-video, or a video
passing the view floor and the duration bucket (looked-up stats default to
zero when the id was not enriched).  An enrichment failure propagates: the
run ends in `Except.error` and no rows are produced. -/
def worker_rows
    (fetch : List (List Char) → Except Unit (List (List Char × EnrichRecord)))
    (minViews : Nat) (durKey : List Char) (total_items : List Candidate) :
    Except Unit (List Candidate) :=
  (enrich_details fetch total_items).map (fun details =>
    total_items.filter (fun c =>
      if c.kind = String.toList "video" then
        let meta := dict_get details c.oid
        !view_filter_drops minViews meta.viewCount &&
          duration_ok durKey meta.durationSec
      else true))

/-- Is an `Except Unit` computation a success? -/
def isOkB {α : Type} : Except Unit α → Bool
  | Except.ok _ => true
  | Except.error _ => false

/-! ## Concrete fixtures (mocked clients and inputs used by the closed
statements below) -/

/-- Mocked Search Client: a continuation token on the first page, none on
the second. -/
def oracleEx : Option (List Char) → SearchPage
  | none => { items := [], nextPageToken := some (String.toList "tok1") }
  | some _ => { items := [], nextPageToken := none }

/-- A video identifier used in fixtures. -/
def vIdEx : List Char := String.toList "vid"

/-- A sample enrichment record. -/
def recEx : EnrichRecord :=
  { viewCount := 7, likeCount := 1, commentCount := 1, durationSec := 10,
    publishedAt := [], thumb := [], title := [], channelTitle := [] }

/-- Mocked Enrichment Client that succeeds on full 50-id batches and fails
on any other batch size: with 60 ids, batch 1 (50 ids) succeeds and
batch 2 (10 ids) fails. -/
def fetchEx : List (List Char) → Except Unit (List (List Char × EnrichRecord)) :=
  fun b =>
    if b.length == 50 then Except.ok (b.map (fun i => (i, recEx)))
    else Except.error ()

/-- 60 video ids: two enrichment batches of sizes 50 and 10. -/
def idsEx : List (List Char) := List.replicate 60 vIdEx

/-- 60 retained video candidates matching `idsEx`. -/
def candsEx : List Candidate :=
  List.replicate 60
    { kind := String.toList "video", oid := vIdEx, title := vIdEx,
      channelTitle := [], publishedAt := [], thumb := [] }

/-- 120 video ids: three enrichment batches of sizes 50, 50 and 20. -/
def ids120 : List (List Char) := List.replicate 120 vIdEx

/-- A raw search hit whose title matches the query of the fixture. -/
def rawEx : RawItem :=
  { videoId := some (String.toList "v1"), playlistId := none,
    channelId := none, title := String.toList "a cat video",
    channelTitle := String.toList "chan", publishedAt := [], thumb := [] }

/-- The candidate `ingest_item` produces from `rawEx` for query "cat". -/
def candEx : Candidate :=
  { kind := String.toList "video", oid := String.toList "v1",
    title := String.toList "a cat video",
    channelTitle := String.toList "chan", publishedAt := [], thumb := [] }

/-! ## Evaluation lemmas for `duration_ok` at the recognised keys -/

theorem duration_ok_any_eq (s : Int) :
    duration_ok (String.toList "any") s = true := rfl

theorem duration_ok_short_eq (s : Int) :
    duration_ok (String.toList "short") s = decide (s < 240) := rfl

theorem duration_ok_medium_eq (s : Int) :
    duration_ok (String.toList "medium") s =
      (decide (240 ≤ s) && decide (s ≤ 1200)) := rfl

theorem duration_ok_long_eq (s : Int) :
    duration_ok (String.toList "long") s = decide (1200 < s) := rfl

theorem duration_ok_over1h_eq (s : Int) :
    duration_ok (String.toList "over1h") s = decide (3600 ≤ s) := rfl

theorem duration_ok_over3h_eq (s : Int) :
    duration_ok (String.toList "over3h") s = decide (10800 ≤ s) := rfl

/-- C5: for every non-negative seconds value the duration-bucket predicate
has the stated boundaries: "any" is always true, "short" iff `s < 240`,
"medium" iff `240 ≤ s ≤ 1200`, "long" iff `s > 1200`, "over1h" iff
`s ≥ 3600`, "over3h" iff `s ≥ 10800`; in particular 239 s is short, 240 s
and 1200 s are medium, 1201 s is long, and 3600 s is both over one hour and
long. -/
theorem claim_C5_duration_buckets (s : Int) (_hs : 0 ≤ s) :
    duration_ok (String.toList "any") s = true
  ∧ (duration_ok (String.toList "short") s = true ↔ s < 240)
  ∧ (duration_ok (String.toList "medium") s = true ↔ 240 ≤ s ∧ s ≤ 1200)
  ∧ (duration_ok (String.toList "long") s = true ↔ 1200 < s)
  ∧ (duration_ok (String.toList "over1h") s = true ↔ 3600 ≤ s)
  ∧ (duration_ok (String.toList "over3h") s = true ↔ 10800 ≤ s)
  ∧ duration_ok (String.toList "short") 239 = true
  ∧ duration_ok (String.toList "medium") 240 = true
  ∧ duration_ok (String.toList "medium") 1200 = true
  ∧ duration_ok (String.toList "long") 1201 = true
  ∧ duration_ok (String.toList "over1h") 3600 = true
  ∧ duration_ok (String.toList "long") 3600 = true := by
  refine ⟨rfl, ?_, ?_, ?_, ?_, ?_, by decide, by decide, by decide,
    by decide, by decide, by decide⟩
  · rw [duration_ok_short_eq]; simp
  · rw [duration_ok_medium_eq]; simp
  · rw [duration_ok_long_eq]; simp
  · rw [duration_ok_over1h_eq]; simp
  · rw [duration_ok_over3h_eq]; simp

/-- Witness for C5 at the concrete seconds value 100. -/
theorem claim_C5_witness :
    duration_ok (String.toList "any") 100 = true ∧
      (duration_ok (String.toList "short") 100 = true ↔ (100 : Int) < 240) :=
  ⟨(claim_C5_duration_buckets 100 (by decide)).1,
   (claim_C5_duration_buckets 100 (by decide)).2.1⟩

/-- C10: any filter key outside the six recognised duration labels makes
`duration_ok` return true for every seconds value. -/
theorem claim_C10_unknown_key (key : List Char)
    (h : key ∉ [String.toList "any", String.toList "short",
      String.toList "medium", String.toList "long",
      String.toList "over1h", String.toList "over3h"]) :
    ∀ s : Int, duration_ok key s = true := by
  intro s
  simp only [List.mem_cons, List.not_mem_nil, or_false, not_or] at h
  obtain ⟨h1, h2, h3, h4, h5, h6⟩ := h
  unfold duration_ok
  rw [if_neg h1, if_neg h2, if_neg h3, if_neg h4, if_neg h5, if_neg h6]

/-- Witness for C10 at the unrecognised key "mystery" and 77 seconds. -/
theorem claim_C10_witness :
    duration_ok (String.toList "mystery") 77 = true :=
  claim_C10_unknown_key (String.toList "mystery") (by decide) 77

/-- C7: the pipeline's view filter retains a row iff the threshold is zero
or the view count meets it. -/
theorem claim_C7_view_floor (m v : Nat) :
    meets_view_floor m v = true ↔ (m = 0 ∨ v ≥ m) := by
  simp only [meets_view_floor, view_filter_drops, Bool.not_eq_true',
    Bool.and_eq_false_iff, bne_eq_false_iff_eq, decide_eq_false_iff_not]
  omega

/-- Witness for C7 at threshold 0 and view count 5. -/
theorem claim_C7_witness : meets_view_floor 0 5 = true :=
  (claim_C7_view_floor 0 5).mpr (Or.inl rfl)

/-- C3: pagination issues one search call per loop iteration and stops as
soon as no continuation token is returned or the page cap is reached: any
mocked client returning a token on page 1 and none on page 2 yields exactly
2 calls under cap 5, and any client at all yields exactly 1 call under
cap 1. -/
theorem claim_C3_pagination :
    (∀ (oracle : Option (List Char) → SearchPage) (t : List Char),
        (oracle none).nextPageToken = some t →
        (oracle (some t)).nextPageToken = none →
        (search_pages oracle 5).2 = 2)
  ∧ (∀ oracle : Option (List Char) → SearchPage,
        (search_pages oracle 1).2 = 1) := by
  constructor
  · intro oracle t h1 h2
    simp [search_pages, search_go, h1, h2]
  · intro oracle
    cases h : (oracle none).nextPageToken with
    | none => simp [search_pages, search_go, h]
    | some t => simp [search_pages, search_go, h]

/-- Witness for C3 with the concrete mocked client `oracleEx`. -/
theorem claim_C3_witness :
    (search_pages oracleEx 5).2 = 2 ∧ (search_pages oracleEx 1).2 = 1 :=
  ⟨claim_C3_pagination.1 oracleEx (String.toList "tok1") rfl rfl,
   claim_C3_pagination.2 oracleEx⟩

/-- C4: enrichment batches in groups of at most 50: 120 video ids produce
exactly 3 calls with batch sizes 50, 50 and 20, and an empty id list
returns an empty mapping without making a call. -/
theorem claim_C4_batching :
    (chunk50 ids120).map List.length = [50, 50, 20]
  ∧ enrich_calls ids120 = 3
  ∧ enrich_calls [] = 0
  ∧ (∀ fetch : List (List Char) → List (List Char × EnrichRecord),
        yt_videos fetch [] = [])
  ∧ yt_videos_calls [] = 0 := by
  refine ⟨by decide, by decide, rfl, fun fetch => rfl, rfl⟩

/-- Witness for C4: the empty-input clause at a concrete client. -/
theorem claim_C4_witness :
    yt_videos (fun _ => [(vIdEx, recEx)]) [] = [] :=
  claim_C4_batching.2.2.2.1 (fun _ => [(vIdEx, recEx)])

/-- C6: the title-match predicate tokenizes the query on whitespace,
case-insensitively, and requires ALL non-empty tokens to occur as
substrings of the title, falling back to whole-string containment when the
token list is empty; "python tutorial" matches "Python Tutorial for
Beginners" but not "Tutorial on guitar". -/
theorem claim_C6_title_match :
    (∀ query title : List Char,
        title_matches query title = true ↔
          query ≠ [] ∧ title ≠ [] ∧
            ((query_tokens query = [] ∧
                isSubstr (norm_query query) (title.map Char.toLower) = true) ∨
             (query_tokens query ≠ [] ∧
                ∀ tok ∈ query_tokens query,
                  isSubstr tok (title.map Char.toLower) = true)))
  ∧ title_matches (String.toList "python tutorial")
      (String.toList "Python Tutorial for Beginners") = true
  ∧ title_matches (String.toList "python tutorial")
      (String.toList "Tutorial on guitar") = false := by
  refine ⟨?_, by decide, by decide⟩
  intro query title
  unfold title_matches
  by_cases hq : query = []
  · subst hq; simp
  by_cases ht : title = []
  · subst ht; simp
  have hg : (query.isEmpty || title.isEmpty) = false := by
    simp [List.isEmpty_iff, hq, ht]
  rw [hg]
  by_cases htok : query_tokens query = []
  · simp [htok, hq, ht, List.isEmpty_iff]
  · simp [htok, hq, ht, List.isEmpty_iff, List.all_eq_true]

/-- Witness for C6: the positive example, read off from the theorem. -/
theorem claim_C6_witness :
    title_matches (String.toList "python tutorial")
      (String.toList "Python Tutorial for Beginners") = true :=
  claim_C6_title_match.2.1

/-- Every candidate `ingest_item` retains passed the title filter. -/
theorem ingest_item_title (query t : List Char) (it : RawItem) (c : Candidate)
    (h : ingest_item query t it = some c) :
    title_matches query c.title = true := by
  unfold ingest_item at h
  repeat' split at h
  all_goals try simp_all
  all_goals (cases h; assumption)

/-- C9: during ingestion every raw candidate of every category is filtered
through the title-match predicate before retention, so every collected
candidate's title matches the query. -/
theorem claim_C9_ingestion_filter (query t : List Char)
    (pages : List (List RawItem)) (c : Candidate)
    (hc : c ∈ collect_candidates query t pages) :
    title_matches query c.title = true := by
  unfold collect_candidates at hc
  rw [List.mem_flatten] at hc
  obtain ⟨l, hl, hcl⟩ := hc
  rw [List.mem_map] at hl
  obtain ⟨items, hitems, rfl⟩ := hl
  rw [List.mem_filterMap] at hcl
  obtain ⟨it, hit, hsome⟩ := hcl
  exact ingest_item_title query t it c hsome

/-- Witness for C9 with a concrete page containing one matching video. -/
theorem claim_C9_witness :
    title_matches (String.toList "cat") candEx.title = true :=
  claim_C9_ingestion_filter (String.toList "cat") (String.toList "video")
    [[rawEx]] candEx (by decide)

/-! ## Duration codec lemmas -/

/-- With no unit marker in sight, the decoder loop never adds anything. -/
theorem iso_go_noUnits : ∀ (l : List Char) (total : Int) (num : List Char),
    l.all notUnit = true → iso_go l total num = total := by
  intro l
  induction l with
  | nil => intro total num _; rfl
  | cons c rest ih =>
    intro total num h
    rw [List.all_cons, Bool.and_eq_true] at h
    obtain ⟨hc, hrest⟩ := h
    have hH : c ≠ 'H' := by intro he; subst he; simp [notUnit] at hc
    have hM : c ≠ 'M' := by intro he; subst he; simp [notUnit] at hc
    have hS : c ≠ 'S' := by intro he; subst he; simp [notUnit] at hc
    simp only [iso_go]
    by_cases hT : c = 'T'
    · rw [if_pos hT]; exact ih total num hrest
    by_cases hd : c.isDigit = true
    · rw [if_neg hT, if_pos hd]; exact ih total _ hrest
    · rw [if_neg hT, if_neg (by simpa using hd), if_neg hH, if_neg hM,
        if_neg hS]
      exact ih total [] hrest

/-- The decoder loop never drives the running total negative. -/
theorem iso_go_nonneg : ∀ (l : List Char) (total : Int) (num : List Char),
    0 ≤ total → 0 ≤ iso_go l total num := by
  intro l
  induction l with
  | nil => intro total num h; exact h
  | cons c rest ih =>
    intro total num h
    simp only [iso_go]
    repeat' split
    all_goals apply ih
    all_goals omega

/-- A string without unit markers decodes to 0 seconds. -/
theorem decode_eq_zero_of_noUnits (s : List Char)
    (hs : s.all notUnit = true) : iso8601_duration_to_seconds s = 0 := by
  apply iso_go_noUnits
  rw [List.all_eq_true] at hs ⊢
  intro c hc
  exact hs c (List.mem_of_mem_filter hc)

/-- Digit characters are never unit markers. -/
theorem digitChar_notUnit (d : Nat) : notUnit (digitChar d) = true := by
  unfold digitChar
  split <;> rfl

/-- The decimal-rendering loop only ever prepends digit characters. -/
theorem natDigitsGo_all (p : Char → Bool)
    (hp : ∀ d : Nat, p (digitChar d) = true) :
    ∀ (fuel n : Nat) (acc : List Char),
      acc.all p = true → (natDigitsGo fuel n acc).all p = true := by
  intro fuel
  induction fuel with
  | zero => intro n acc h; exact h
  | succ fuel ih =>
    intro n acc h
    simp only [natDigitsGo]
    split
    · exact h
    · apply ih
      rw [List.all_cons, Bool.and_eq_true]
      exact ⟨hp _, h⟩

/-- Zero-padded decimal fields consist of digit characters only. -/
theorem fmt02_all (p : Char → Bool)
    (hp : ∀ d : Nat, p (digitChar d) = true) (n : Nat) :
    (fmt02 n).all p = true := by
  have hz : p '0' = true := hp 0
  have hds : (natDigitsGo (n + 1) n []).all p = true :=
    natDigitsGo_all p hp (n + 1) n [] rfl
  simp only [fmt02]
  split
  · simp [hz]
  · split
    · simp [hz, hds]
    · exact hds

/-- Every character the encoder emits is a digit or a colon; in particular
none is a unit marker. -/
theorem seconds_to_hms_all (p : Char → Bool)
    (hp : ∀ d : Nat, p (digitChar d) = true) (hcolon : p ':' = true)
    (sec : Nat) : (seconds_to_hms sec).all p = true := by
  simp only [seconds_to_hms]
  split <;> simp [List.all_append, List.all_cons, fmt02_all p hp, hcolon]

/-- C2 fails on the code: decoding the encoder's output for 125 seconds
(the string "02:05") yields 0, not 125 — the decoder looks for `H`/`M`/`S`
unit markers, which the `mm:ss`-style encoder never emits. -/
theorem claim_C2_counterexample :
    ¬ iso8601_duration_to_seconds (seconds_to_hms 125) = (125 : Int) := by
  decide

/-- C2 amended: for every non-negative duration `d`, decoding the string
produced by the encoder yields 0 seconds, so the decode/encode pair
round-trips exactly when `d = 0`. -/
theorem claim_C2_amended (d : Nat) :
    iso8601_duration_to_seconds (seconds_to_hms d) = 0
  ∧ (iso8601_duration_to_seconds (seconds_to_hms d) = (d : Int) ↔ d = 0) := by
  have h0 : iso8601_duration_to_seconds (seconds_to_hms d) = 0 :=
    decode_eq_zero_of_noUnits _ (seconds_to_hms_all notUnit digitChar_notUnit rfl d)
  refine ⟨h0, ?_⟩
  rw [h0]
  constructor
  · intro h; exact_mod_cast h.symm
  · intro h; subst h; rfl

/-- C8: the decoder is total and lenient — every input yields a
non-negative seconds value (the embedding returns an `Int` with no failure
path), the absent input yields 0, and any input with no unit markers (no
recognizable digit-run/unit structure) yields 0. -/
theorem claim_C8_decoder_total :
    (∀ s : List Char, 0 ≤ iso8601_duration_to_seconds s)
  ∧ iso8601_duration_to_seconds [] = 0
  ∧ (∀ s : List Char, s.all notUnit = true →
      iso8601_duration_to_seconds s = 0) := by
  refine ⟨?_, rfl, ?_⟩
  · intro s
    exact iso_go_nonneg _ 0 [] (le_refl 0)
  · intro s hs
    exact decode_eq_zero_of_noUnits s hs

/-- Witness for C8 at the malformed input "12:34 junk". -/
theorem claim_C8_witness :
    0 ≤ iso8601_duration_to_seconds (String.toList "12:34 junk")
  ∧ iso8601_duration_to_seconds (String.toList "12:34 junk") = 0 :=
  ⟨claim_C8_decoder_total.1 (String.toList "12:34 junk"),
   claim_C8_decoder_total.2.2 (String.toList "12:34 junk") (by decide)⟩

/-! ## Enrichment failure propagation -/

/-- If any batch in the enrichment loop fails, the loop as a whole raises:
the accumulated mapping is abandoned. -/
theorem foldl_enrich_err
    (fetch : List (List Char) → Except Unit (List (List Char × EnrichRecord))) :
    ∀ (l : List (List (List Char))) (acc : List (List Char × EnrichRecord)),
      (∃ c ∈ l, isOkB (yt_videosE fetch c) = false) →
      isOkB (l.foldlM
        (fun acc b => (yt_videosE fetch b).map (fun m => acc ++ m)) acc)
        = false := by
  intro l
  induction l with
  | nil => intro acc h; simp at h
  | cons c rest ih =>
    intro acc h
    rw [List.foldlM_cons]
    cases hc : yt_videosE fetch c with
    | error e =>
      simp [hc, Except.map, Bind.bind, Except.bind, isOkB]
    | ok m =>
      have hrest : ∃ b ∈ rest, isOkB (yt_videosE fetch b) = false := by
        obtain ⟨b, hb, hfail⟩ := h
        rcases List.mem_cons.mp hb with rfl | hbr
        · rw [hc] at hfail; simp [isOkB] at hfail
        · exact ⟨b, hbr, hfail⟩
      simpa [hc, Except.map, Bind.bind, Except.bind] using ih _ hrest

/-- C1 fails on the code: with 60 video ids and an Enrichment Client whose
first 50-id batch succeeds but whose second batch fails, the run's
enrichment ends in an error and the worker produces no rows at all — the
records merged from the first, successful batch are not preserved in that
run's output. -/
theorem claim_C1_counterexample :
    isOkB (yt_videosE fetchEx (List.replicate 50 vIdEx)) = true
  ∧ isOkB (enrich_allE fetchEx idsEx) = false
  ∧ isOkB (worker_rows fetchEx 0 (String.toList "any") candsEx) = false := by
  refine ⟨by decide, by decide, by decide⟩

/-- C1 amended: a failure in any enrichment batch propagates as the
exception of the whole run — the enrichment result is an error and the
worker builds no rows, so records merged from prior successful batches are
discarded with the rest of that run's output (the zero-valued-stats
fallback applies only to ids missing from successful responses). -/
theorem claim_C1_amended :
    (∀ (fetch : List (List Char) →
          Except Unit (List (List Char × EnrichRecord)))
        (ids : List (List Char)),
        (∃ c ∈ chunk50 ids, isOkB (yt_videosE fetch c) = false) →
        isOkB (enrich_allE fetch ids) = false)
  ∧ (∀ (fetch : List (List Char) →
          Except Unit (List (List Char × EnrichRecord)))
        (minViews : Nat) (durKey : List Char)
        (total_items : List Candidate),
        isOkB (enrich_details fetch total_items) = false →
        isOkB (worker_rows fetch minViews durKey total_items) = false) := by
  constructor
  · intro fetch ids h
    exact foldl_enrich_err fetch (chunk50 ids) [] h
  · intro fetch minViews durKey total_items h
    unfold worker_rows
    cases hd : enrich_details fetch total_items with
    | error e => simp [Except.map, isOkB]
    | ok m => rw [hd] at h; simp [isOkB] at h

/-- Witness for the amended C1 at the concrete failing client `fetchEx`. -/
theorem claim_C1_witness :
    isOkB (enrich_allE fetchEx idsEx) = false
  ∧ isOkB (worker_rows fetchEx 3 (String.toList "short") candsEx) = false := by
  constructor
  · exact claim_C1_amended.1 fetchEx idsEx (by decide)
  · exact claim_C1_amended.2 fetchEx 3 (String.toList "short") candsEx
      (by decide)

end YtScout
